import Mathlib

/-!
Shallow embedding of `include/xvega-bindings/xvega_bindings.hpp` (namespace
`xv_bindings`): the generic `parser_base` engine (command table, `parse_step`,
`parse_loop`, `simple_switch`, `visit_any`) and its four concrete grammar
instances (`bin_parser`, `field_parser`, `mark_parser`, `xv_sqlite_parser`),
plus the top-level entry point `process_xvega_input`.

Modelling conventions:
- a token stream is a `List String`; the C++ iterators `begin`/`end` become
  `Nat` indices into that list (the real call sites always use
  `tokens.begin()`/`tokens.end()`, i.e. indices `0` and `tokens.length`);
- `throw std::runtime_error(msg)` becomes `Except.error (Err.runtimeError msg)`;
- dereferencing an iterator at or past the end of the underlying vector is
  undefined behaviour in C++; it is modelled as the distinguished outcome
  `Err.oobRead`;
- mutation of the parser object / chart becomes explicit state threading;
  a nested parser mutating a sub-object of the chart through a pointer is
  modelled by running the nested grammar on the sub-state and writing the
  result back on success (on failure the whole operation aborts and the
  partially mutated chart is discarded by every caller, so the difference
  is unobservable);
- text printed to `std::cout` (the per-token trace in `parse_step`, the
  registration messages) carries no data used by the program and is dropped,
  except for the "Unregistered type" diagnostic of `visit_any`, which is the
  observable side channel of the dispatch-gap case and is returned explicitly.
-/

namespace XvegaBindings

/-- Error channel of the interpreter.  `runtimeError` models
`throw std::runtime_error(msg)` (and the `std::invalid_argument` thrown by
`std::stoi`/`std::stod` on non-numeric input, which travels the same
exception channel out of `process_xvega_input`).  `oobRead` marks a
dereference of the past-the-end iterator: undefined behaviour in the C++
source, modelled as a distinguished stuck outcome. -/
inductive Err where
  | runtimeError (msg : String)
  | oobRead
  deriving DecidableEq

/-- Modelled from the spec: `to_upper` comes from `utils.hpp`, which is not
under `src/`.  The spec states that tokens are "compared case-insensitively
for keyword matching", so the normalization is ASCII upper-casing
(character-wise, like `std::toupper` over the string). -/
def to_upper (s : String) : String := String.mk (s.data.map Char.toUpper)

/-- Modelled from the spec: `to_lower` comes from `utils.hpp`, which is not
under `src/`.  Scenario A of the spec (input `COLOR RED` yields stored color
`red`) fixes it as ASCII lower-casing (character-wise, like `std::tolower`
over the string). -/
def to_lower (s : String) : String := String.mk (s.data.map Char.toLower)

/-- Read the token at index `i`; reading at or past the end of the vector is
the undefined behaviour `Err.oobRead`. -/
def getTok (tokens : List String) (i : Nat) : Except Err String :=
  match tokens[i]? with
  | some t => Except.ok t
  | none => Except.error Err.oobRead

/-- `std::distance(it, end)` for indices: number of positions from `b` to `e`
(including the token at `b` itself), as a signed quantity. -/
def distance (b e : Nat) : Int := (e : Int) - (b : Int)

/-- Value of a list of decimal digit characters. -/
def digitsVal (ds : List Char) : Nat :=
  ds.foldl (fun a c => a * 10 + (c.toNat - ('0').toNat)) 0

/-- `std::stoi` on the decimal forms appearing in this vocabulary: skip
leading spaces, optional sign, then a nonempty run of digits (trailing
characters are ignored, as in C++); no digits means
`std::invalid_argument`. -/
def stoi (s : String) : Except Err Int :=
  let cs := s.toList.dropWhile (fun c => c = ' ')
  let sgncs : Int × List Char :=
    match cs with
    | '-' :: rest => (-1, rest)
    | '+' :: rest => (1, rest)
    | _ => (1, cs)
  let ds := sgncs.2.takeWhile Char.isDigit
  if ds.isEmpty then Except.error (Err.runtimeError "std::invalid_argument: stoi")
  else Except.ok (sgncs.1 * (digitsVal ds : Int))

/-- `std::stod` on the decimal forms appearing in this vocabulary: optional
sign, integer digits, optional fractional part; the value is kept exactly as
a rational (no claim inspects the numeric value itself). -/
def stod (s : String) : Except Err ℚ :=
  let cs := s.toList.dropWhile (fun c => c = ' ')
  let sgncs : ℚ × List Char :=
    match cs with
    | '-' :: rest => (-1, rest)
    | '+' :: rest => (1, rest)
    | _ => (1, cs)
  let ds := sgncs.2.takeWhile Char.isDigit
  let rest := sgncs.2.dropWhile Char.isDigit
  let fs : List Char :=
    match rest with
    | '.' :: r => r.takeWhile Char.isDigit
    | _ => []
  if ds.isEmpty && fs.isEmpty then
    Except.error (Err.runtimeError "std::invalid_argument: stod")
  else
    Except.ok (sgncs.1 * ((digitsVal ds : ℚ) + (digitsVal fs : ℚ) / ((10 : ℚ) ^ fs.length)))

/-- Association-list lookup by key, first match wins; models lookup in the
(unique-keyed) `std::map` / `std::unordered_map` used by the source. -/
def assocLookup {κ α : Type} [DecidableEq κ] (key : κ) : List (κ × α) → Option α
  | [] => none
  | (k, v) :: rest => if k = key then some v else assocLookup key rest

/-! ## The generic engine (`parser_base<T>`)

The CRTP state `T` of a concrete parser becomes a state type `σ`; the two
handler shapes of `parse_function_types` become the two constructors below.
A handler receives the token list so that it can dereference its iterator
argument itself, exactly as the C++ member functions do. -/

/-- The two handler shapes (`point_it_fun` / `range_it_fun`).  A point
handler mutates the state (or throws); the engine advances the cursor by one
more position afterwards.  A range handler receives `(begin, end)` and
returns the state together with the cursor at which parsing resumes. -/
inductive ParseFun (σ : Type) where
  | point (f : σ → List String → Nat → Except Err σ)
  | range (f : σ → List String → Nat → Nat → Except Err (σ × Nat))

/-- `parser_base::command_info`. -/
structure CommandInfo (σ : Type) where
  number_required_arguments : Int
  parse_function : ParseFun σ

/-- The command-table lookup performed by `parse_step`:
`mapping_table.find(to_upper(*it))`. -/
def lookupCmd {σ : Type} (tbl : List (String × CommandInfo σ)) (tok : String) :
    Option (CommandInfo σ) :=
  assocLookup (to_upper tok) tbl

/-- `parser_base::simple_switch`: normalize the token, look it up in the
handler map; on a match run the handler (a zero-argument effect on the
captured state) and report `true`, otherwise leave the state alone and
report `false`. -/
def simple_switch {σ : Type} (token : String)
    (handlers : List (String × (σ → σ))) (s : σ) : Bool × σ :=
  match assocLookup (to_upper token) handlers with
  | none => (false, s)
  | some h => (true, h s)

/-- `parser_base::parse_step`: read the token at `b` (the `std::cout` trace
is dropped), look it up in the table; no match returns the cursor unchanged;
on a match, `std::distance(it, end) < number_required_arguments` throws
"Arguments missing.", otherwise the cursor moves past the keyword and the
handler is dispatched: a point handler is invoked at the new cursor and the
cursor then advances one more position; a range handler's returned cursor is
adopted verbatim. -/
def parse_step {σ : Type} (tbl : List (String × CommandInfo σ))
    (tokens : List String) (b e : Nat) (s : σ) : Except Err (σ × Nat) :=
  match getTok tokens b with
  | Except.error err => Except.error err
  | Except.ok tok =>
    match lookupCmd tbl tok with
    | none => Except.ok (s, b)
    | some cmd_info =>
      if distance b e < cmd_info.number_required_arguments then
        Except.error (Err.runtimeError "Arguments missing.")
      else
        match cmd_info.parse_function with
        | ParseFun.point f =>
          match f s tokens (b + 1) with
          | Except.error err => Except.error err
          | Except.ok s' => Except.ok (s', b + 2)
        | ParseFun.range f => f s tokens (b + 1) e

/-- A grammar instance: a command table plus the `parse_init` hook, whose
base-class default returns `begin` unchanged (the identity init step). -/
structure Grammar (σ : Type) where
  mapping_table : List (String × CommandInfo σ)
  parse_init : σ → List String → Nat → Nat → Except Err (σ × Nat) :=
    fun s _ b _ => Except.ok (s, b)

/-- The `while (it != end)` body of `parse_loop`: step from `it`; stop when
the cursor reaches `e` or a step makes no progress.  `fuel` bounds the
number of iterations so the recursion is structural; running out of fuel is
the distinguished outcome `diverge` below, which provably never occurs with
`fuel = tokens.length + 1` for the grammars of this program (each continuing
iteration strictly advances the cursor, and a cursor at or past the vector
end stops within one step). -/
def parse_loop_aux {σ : Type} (tbl : List (String × CommandInfo σ))
    (tokens : List String) (e : Nat) :
    Nat → Nat → σ → Except Err (σ × Nat)
  | 0, _, _ => Except.error (Err.runtimeError "diverge")
  | fuel + 1, it, s =>
    if it = e then Except.ok (s, it)
    else
      match parse_step tbl tokens it e s with
      | Except.error err => Except.error err
      | Except.ok (s', next) =>
        if next = it then Except.ok (s', it)
        else parse_loop_aux tbl tokens e fuel next s'

/-- `parser_base::parse_loop`: first the grammar's `parse_init`, then the
table-driven stepping loop. -/
def parse_loop {σ : Type} (g : Grammar σ) (fuel : Nat) (tokens : List String)
    (b e : Nat) (s : σ) : Except Err (σ × Nat) :=
  match g.parse_init s tokens b e with
  | Except.error err => Except.error err
  | Except.ok (s', it) => parse_loop_aux g.mapping_table tokens e fuel it s'

/-- `parser_base::visit_any`: the runtime `std::type_index` of the held
`xtl::any` becomes a tag of type `τ`; the registry maps tags to effects on
the surrounding state.  A registered tag runs exactly its handler; an
unregistered tag leaves the state untouched and produces the
"Unregistered type" diagnostic on the side channel (`std::cout`), returning
normally either way. -/
def visit_any {τ σ : Type} [DecidableEq τ] (typeName : τ → String) (tag : τ)
    (any_visitor : List (τ × (σ → σ))) (s : σ) : σ × Option String :=
  match assocLookup tag any_visitor with
  | some h => (h s, none)
  | none => (s, some ("Unregistered type " ++ typeName tag))

/-! ## Data model

Only the chart fields this vocabulary touches are modelled; each `xtl::xoptional`
field becomes an `Option`, unset on default construction. -/

/-- `xv::Bin`: the binning sub-configuration (fields touched by `bin_parser`). -/
structure Bin where
  anchor : Option ℚ := none
  base : Option ℚ := none
  binned : Option Bool := none
  maxbins : Option ℚ := none
  minstep : Option ℚ := none
  nice : Option Bool := none
  step : Option ℚ := none
  deriving DecidableEq

/-- The mutable fields of a `bin_parser` object: the bound `xv::Bin&` target
and the applied-attribute counter `int num_parsed_attrs = 0`. -/
structure BinParserState where
  bin : Bin := {}
  num_parsed_attrs : Int := 0
  deriving DecidableEq

/-- The `BIN` attribute of a field encoding is either the boolean toggle or
a nested `xv::Bin` configuration. -/
inductive BinVal where
  | flag (b : Bool)
  | conf (b : Bin)
  deriving DecidableEq

/-- The common shape of `xv::X` / `xv::Y` as used by `field_parser` (the
variant visit applies the same lambda to either pointer). -/
structure FieldEnc where
  field : Option String := none
  type : Option String := none
  bin : Option BinVal := none
  aggregate : Option String := none
  timeUnit : Option String := none
  deriving DecidableEq

/-- The closed set of mark kinds (`xv::mark_arc` .. `xv::mark_trail`). -/
inductive MarkKind where
  | arc | area | bar | circle | line | point | rect | rule | square | tick | trail
  deriving DecidableEq

/-- A mark value: its kind plus the only variant field this vocabulary
mutates (`color`, unset on default construction of any `xv::mark_*`). -/
structure MarkValue where
  kind : MarkKind
  color : Option String := none
  deriving DecidableEq

/-- `xv::axis_config` (the `grid` flag). -/
structure AxisConfig where
  grid : Option Bool := none
  deriving DecidableEq

/-- `xv::Config` (the `axis` sub-config). -/
structure Config where
  axis : Option AxisConfig := none
  deriving DecidableEq

/-- `xv::Chart`, flattened: `encoding().x` / `encoding().y` appear as `x` /
`y` (the `Encodings` wrapper holds nothing else this vocabulary touches);
the externally supplied data frame is out of scope. -/
structure Chart where
  width : Option Int := none
  height : Option Int := none
  x : Option FieldEnc := none
  y : Option FieldEnc := none
  mark : Option MarkValue := none
  config : Option Config := none
  deriving DecidableEq

/-! ## `bin_parser` -/

/-- `bin_parser::parse_bin_anchor`. -/
def parse_bin_anchor (s : BinParserState) (tokens : List String) (it : Nat) :
    Except Err BinParserState :=
  match getTok tokens it with
  | Except.error err => Except.error err
  | Except.ok tok =>
    match stod tok with
    | Except.error err => Except.error err
    | Except.ok v =>
      Except.ok { s with bin := { s.bin with anchor := some v },
                         num_parsed_attrs := s.num_parsed_attrs + 1 }

/-- `bin_parser::parse_bin_base`. -/
def parse_bin_base (s : BinParserState) (tokens : List String) (it : Nat) :
    Except Err BinParserState :=
  match getTok tokens it with
  | Except.error err => Except.error err
  | Except.ok tok =>
    match stod tok with
    | Except.error err => Except.error err
    | Except.ok v =>
      Except.ok { s with bin := { s.bin with base := some v },
                         num_parsed_attrs := s.num_parsed_attrs + 1 }

/-- The `simple_switch` handler map of `bin_parser::parse_bin_binned`. -/
def bin_binned_handlers : List (String × (BinParserState → BinParserState)) :=
  [ ("TRUE", fun s => { s with bin := { s.bin with binned := some true },
                               num_parsed_attrs := s.num_parsed_attrs + 1 }),
    ("FALSE", fun s => { s with bin := { s.bin with binned := some false },
                                num_parsed_attrs := s.num_parsed_attrs + 1 }) ]

/-- `bin_parser::parse_bin_binned`: the `simple_switch` result is discarded,
so an unmatched value token is silently ignored. -/
def parse_bin_binned (s : BinParserState) (tokens : List String) (it : Nat) :
    Except Err BinParserState :=
  match getTok tokens it with
  | Except.error err => Except.error err
  | Except.ok tok => Except.ok (simple_switch tok bin_binned_handlers s).2

/-- `bin_parser::parse_bin_maxbins`. -/
def parse_bin_maxbins (s : BinParserState) (tokens : List String) (it : Nat) :
    Except Err BinParserState :=
  match getTok tokens it with
  | Except.error err => Except.error err
  | Except.ok tok =>
    match stod tok with
    | Except.error err => Except.error err
    | Except.ok v =>
      Except.ok { s with bin := { s.bin with maxbins := some v },
                         num_parsed_attrs := s.num_parsed_attrs + 1 }

/-- `bin_parser::parse_bin_minstep`. -/
def parse_bin_minstep (s : BinParserState) (tokens : List String) (it : Nat) :
    Except Err BinParserState :=
  match getTok tokens it with
  | Except.error err => Except.error err
  | Except.ok tok =>
    match stod tok with
    | Except.error err => Except.error err
    | Except.ok v =>
      Except.ok { s with bin := { s.bin with minstep := some v },
                         num_parsed_attrs := s.num_parsed_attrs + 1 }

/-- The `simple_switch` handler map of `bin_parser::parse_bin_nice`. -/
def bin_nice_handlers : List (String × (BinParserState → BinParserState)) :=
  [ ("TRUE", fun s => { s with bin := { s.bin with nice := some true },
                               num_parsed_attrs := s.num_parsed_attrs + 1 }),
    ("FALSE", fun s => { s with bin := { s.bin with nice := some false },
                                num_parsed_attrs := s.num_parsed_attrs + 1 }) ]

/-- `bin_parser::parse_bin_nice` (result of the switch likewise discarded). -/
def parse_bin_nice (s : BinParserState) (tokens : List String) (it : Nat) :
    Except Err BinParserState :=
  match getTok tokens it with
  | Except.error err => Except.error err
  | Except.ok tok => Except.ok (simple_switch tok bin_nice_handlers s).2

/-- `bin_parser::parse_bin_step`. -/
def parse_bin_step (s : BinParserState) (tokens : List String) (it : Nat) :
    Except Err BinParserState :=
  match getTok tokens it with
  | Except.error err => Except.error err
  | Except.ok tok =>
    match stod tok with
    | Except.error err => Except.error err
    | Except.ok v =>
      Except.ok { s with bin := { s.bin with step := some v },
                         num_parsed_attrs := s.num_parsed_attrs + 1 }

/-- The `bin_parser` grammar instance (DIVIDE, EXTENT, STEPS are commented
out in the source); it inherits the identity `parse_init`. -/
def binGrammar : Grammar BinParserState :=
  { mapping_table :=
      [ ("ANCHOR",  ⟨1, ParseFun.point parse_bin_anchor⟩),
        ("BASE",    ⟨1, ParseFun.point parse_bin_base⟩),
        ("BINNED",  ⟨1, ParseFun.point parse_bin_binned⟩),
        ("MAXBINS", ⟨1, ParseFun.point parse_bin_maxbins⟩),
        ("MINSTEP", ⟨1, ParseFun.point parse_bin_minstep⟩),
        ("NICE",    ⟨1, ParseFun.point parse_bin_nice⟩),
        ("STEP",    ⟨1, ParseFun.point parse_bin_step⟩) ] }

/-! ## `field_parser` -/

/-- `field_parser::parse_init`: unconditionally consume the field identifier
(stored verbatim) and default the type to "quantitative". -/
def field_parse_init (s : FieldEnc) (tokens : List String) (b _e : Nat) :
    Except Err (FieldEnc × Nat) :=
  match getTok tokens b with
  | Except.error err => Except.error err
  | Except.ok tok =>
    Except.ok ({ s with field := some tok, type := some "quantitative" }, b + 1)

/-- The TRUE/FALSE toggle map tried first by `field_parser::parse_field_bin`. -/
def field_bin_handlers : List (String × (FieldEnc → FieldEnc)) :=
  [ ("TRUE", fun s => { s with bin := some (BinVal.flag true) }),
    ("FALSE", fun s => { s with bin := some (BinVal.flag false) }) ]

/-- `field_parser::parse_field_bin`: try the TRUE/FALSE toggle; otherwise
run a fresh `bin_parser` over the remaining tokens, fail if it applied zero
attributes, else store the nested configuration and resume at its cursor. -/
def parse_field_bin (s : FieldEnc) (tokens : List String) (b e : Nat) :
    Except Err (FieldEnc × Nat) :=
  match getTok tokens b with
  | Except.error err => Except.error err
  | Except.ok tok =>
    match simple_switch tok field_bin_handlers s with
    | (true, s') => Except.ok (s', b + 1)
    | (false, _) =>
      match parse_loop binGrammar (tokens.length + 1) tokens b e ({} : BinParserState) with
      | Except.error err => Except.error err
      | Except.ok (pst, it) =>
        if pst.num_parsed_attrs = 0 then
          Except.error (Err.runtimeError "Missing or invalid BIN type")
        else
          Except.ok ({ s with bin := some (BinVal.conf pst.bin) }, it)

/-- The enumerated map of `field_parser::parse_field_type`. -/
def field_type_handlers : List (String × (FieldEnc → FieldEnc)) :=
  [ ("QUANTITATIVE", fun s => { s with type := some "quantitative" }),
    ("NOMINAL",      fun s => { s with type := some "nominal" }),
    ("ORDINAL",      fun s => { s with type := some "ordinal" }),
    ("TEMPORAL",     fun s => { s with type := some "temporal" }) ]

/-- `field_parser::parse_field_type` (point handler; unmatched value throws). -/
def parse_field_type (s : FieldEnc) (tokens : List String) (it : Nat) :
    Except Err FieldEnc :=
  match getTok tokens it with
  | Except.error err => Except.error err
  | Except.ok tok =>
    match simple_switch tok field_type_handlers s with
    | (true, s') => Except.ok s'
    | (false, _) => Except.error (Err.runtimeError "Missing or invalid TYPE type")

/-- The 22-entry enumerated map of `field_parser::parse_field_aggregate`. -/
def field_aggregate_handlers : List (String × (FieldEnc → FieldEnc)) :=
  [ ("COUNT",     fun s => { s with aggregate := some "count" }),
    ("VALID",     fun s => { s with aggregate := some "valid" }),
    ("MISSING",   fun s => { s with aggregate := some "missing" }),
    ("DISTINCT",  fun s => { s with aggregate := some "distinct" }),
    ("SUM",       fun s => { s with aggregate := some "sum" }),
    ("PRODUCT",   fun s => { s with aggregate := some "product" }),
    ("MEAN",      fun s => { s with aggregate := some "mean" }),
    ("AVERAGE",   fun s => { s with aggregate := some "average" }),
    ("VARIANCE",  fun s => { s with aggregate := some "variance" }),
    ("VARIANCEP", fun s => { s with aggregate := some "variancep" }),
    ("STDEV",     fun s => { s with aggregate := some "stdev" }),
    ("STEDEVP",   fun s => { s with aggregate := some "stedevp" }),
    ("STEDERR",   fun s => { s with aggregate := some "stederr" }),
    ("MEDIAN",    fun s => { s with aggregate := some "median" }),
    ("Q1",        fun s => { s with aggregate := some "q1" }),
    ("Q3",        fun s => { s with aggregate := some "q3" }),
    ("CI0",       fun s => { s with aggregate := some "ci0" }),
    ("CI1",       fun s => { s with aggregate := some "ci1" }),
    ("MIN",       fun s => { s with aggregate := some "min" }),
    ("MAX",       fun s => { s with aggregate := some "max" }),
    ("ARGMIN",    fun s => { s with aggregate := some "argmin" }),
    ("ARGMAX",    fun s => { s with aggregate := some "argmax" }) ]

/-- `field_parser::parse_field_aggregate` (range handler; unmatched value
throws, otherwise resume just past the value token). -/
def parse_field_aggregate (s : FieldEnc) (tokens : List String) (b _e : Nat) :
    Except Err (FieldEnc × Nat) :=
  match getTok tokens b with
  | Except.error err => Except.error err
  | Except.ok tok =>
    match simple_switch tok field_aggregate_handlers s with
    | (true, s') => Except.ok (s', b + 1)
    | (false, _) => Except.error (Err.runtimeError "Missing or invalid AGGREGATE type")

/-- The 9-entry enumerated map of `field_parser::parse_field_time_unit`. -/
def field_time_unit_handlers : List (String × (FieldEnc → FieldEnc)) :=
  [ ("YEAR",        fun s => { s with timeUnit := some "year" }),
    ("QUARTER",     fun s => { s with timeUnit := some "quarter" }),
    ("MONTH",       fun s => { s with timeUnit := some "month" }),
    ("DAY",         fun s => { s with timeUnit := some "day" }),
    ("DATE",        fun s => { s with timeUnit := some "date" }),
    ("HOURS",       fun s => { s with timeUnit := some "hours" }),
    ("MINUTES",     fun s => { s with timeUnit := some "minutes" }),
    ("SECONDS",     fun s => { s with timeUnit := some "seconds" }),
    ("MILISECONDS", fun s => { s with timeUnit := some "miliseconds" }) ]

/-- `field_parser::parse_field_time_unit` (point handler; unmatched value
throws). -/
def parse_field_time_unit (s : FieldEnc) (tokens : List String) (it : Nat) :
    Except Err FieldEnc :=
  match getTok tokens it with
  | Except.error err => Except.error err
  | Except.ok tok =>
    match simple_switch tok field_time_unit_handlers s with
    | (true, s') => Except.ok s'
    | (false, _) => Except.error (Err.runtimeError "Missing or invalid TIME_UNIT type")

/-- The `field_parser` grammar instance. -/
def fieldGrammar : Grammar FieldEnc :=
  { mapping_table :=
      [ ("TYPE",      ⟨1, ParseFun.point parse_field_type⟩),
        ("BIN",       ⟨1, ParseFun.range parse_field_bin⟩),
        ("AGGREGATE", ⟨1, ParseFun.range parse_field_aggregate⟩),
        ("TIME_UNIT", ⟨1, ParseFun.point parse_field_time_unit⟩) ],
    parse_init := field_parse_init }

/-! ## `mark_parser` -/

/-- The 11-entry enumerated map of `mark_parser::parse_init`: each effect
installs a freshly default-constructed mark of the given kind. -/
def mark_init_handlers : List (String × (Chart → Chart)) :=
  [ ("ARC",    fun c => { c with mark := some { kind := MarkKind.arc } }),
    ("AREA",   fun c => { c with mark := some { kind := MarkKind.area } }),
    ("BAR",    fun c => { c with mark := some { kind := MarkKind.bar } }),
    ("CIRCLE", fun c => { c with mark := some { kind := MarkKind.circle } }),
    ("LINE",   fun c => { c with mark := some { kind := MarkKind.line } }),
    ("POINT",  fun c => { c with mark := some { kind := MarkKind.point } }),
    ("RECT",   fun c => { c with mark := some { kind := MarkKind.rect } }),
    ("RULE",   fun c => { c with mark := some { kind := MarkKind.rule } }),
    ("SQUARE", fun c => { c with mark := some { kind := MarkKind.square } }),
    ("TICK",   fun c => { c with mark := some { kind := MarkKind.tick } }),
    ("TRAIL",  fun c => { c with mark := some { kind := MarkKind.trail } }) ]

/-- `mark_parser::parse_init`: resolve the mark keyword; failure throws,
success consumes the keyword. -/
def mark_parse_init (c : Chart) (tokens : List String) (b _e : Nat) :
    Except Err (Chart × Nat) :=
  match getTok tokens b with
  | Except.error err => Except.error err
  | Except.ok tok =>
    match simple_switch tok mark_init_handlers c with
    | (true, c') => Except.ok (c', b + 1)
    | (false, _) => Except.error (Err.runtimeError "Missing or invalid MARK type")

/-- The runtime tag of `chart.mark().value()` seen by `visit_any`: the held
mark kind, or `none` for the default-constructed (empty) `xtl::any` when no
mark has been installed. -/
def markTag (m : Option MarkValue) : Option MarkKind := Option.map MarkValue.kind m

/-- The demangled type names appearing in the dispatch-gap diagnostic. -/
def markTypeName : Option MarkKind → String
  | some MarkKind.arc    => "xtl::xclosure_wrapper<xv::mark_arc&>"
  | some MarkKind.area   => "xtl::xclosure_wrapper<xv::mark_area&>"
  | some MarkKind.bar    => "xtl::xclosure_wrapper<xv::mark_bar&>"
  | some MarkKind.circle => "xtl::xclosure_wrapper<xv::mark_circle&>"
  | some MarkKind.line   => "xtl::xclosure_wrapper<xv::mark_line&>"
  | some MarkKind.point  => "xtl::xclosure_wrapper<xv::mark_point&>"
  | some MarkKind.rect   => "xtl::xclosure_wrapper<xv::mark_rect&>"
  | some MarkKind.rule   => "xtl::xclosure_wrapper<xv::mark_rule&>"
  | some MarkKind.square => "xtl::xclosure_wrapper<xv::mark_square&>"
  | some MarkKind.tick   => "xtl::xclosure_wrapper<xv::mark_tick&>"
  | some MarkKind.trail  => "xtl::xclosure_wrapper<xv::mark_trail&>"
  | none                 => "void"

/-- The per-call registry built by `mark_parser::parse_color`: one entry per
mark shape, each setting that shape's `color` to `to_lower(*it)` through the
wrapped reference into the chart. -/
def mark_color_visitor (tok : String) : List (Option MarkKind × (Chart → Chart)) :=
  [ (some MarkKind.arc,
      fun c => { c with mark := Option.map (fun m => { m with color := some (to_lower tok) }) c.mark }),
    (some MarkKind.area,
      fun c => { c with mark := Option.map (fun m => { m with color := some (to_lower tok) }) c.mark }),
    (some MarkKind.bar,
      fun c => { c with mark := Option.map (fun m => { m with color := some (to_lower tok) }) c.mark }),
    (some MarkKind.circle,
      fun c => { c with mark := Option.map (fun m => { m with color := some (to_lower tok) }) c.mark }),
    (some MarkKind.line,
      fun c => { c with mark := Option.map (fun m => { m with color := some (to_lower tok) }) c.mark }),
    (some MarkKind.point,
      fun c => { c with mark := Option.map (fun m => { m with color := some (to_lower tok) }) c.mark }),
    (some MarkKind.rect,
      fun c => { c with mark := Option.map (fun m => { m with color := some (to_lower tok) }) c.mark }),
    (some MarkKind.rule,
      fun c => { c with mark := Option.map (fun m => { m with color := some (to_lower tok) }) c.mark }),
    (some MarkKind.square,
      fun c => { c with mark := Option.map (fun m => { m with color := some (to_lower tok) }) c.mark }),
    (some MarkKind.tick,
      fun c => { c with mark := Option.map (fun m => { m with color := some (to_lower tok) }) c.mark }),
    (some MarkKind.trail,
      fun c => { c with mark := Option.map (fun m => { m with color := some (to_lower tok) }) c.mark }) ]

/-- `mark_parser::parse_color`: dispatch over the held mark shape via
`visit_any` (in the source each registered lambda dereferences the value
token; since the registry covers every constructible mark shape, the token
read is performed up front here).  The diagnostic side channel of
`visit_any` is dropped, matching `std::cout`. -/
def parse_color (c : Chart) (tokens : List String) (it : Nat) :
    Except Err Chart :=
  match getTok tokens it with
  | Except.error err => Except.error err
  | Except.ok tok =>
    Except.ok (visit_any markTypeName (markTag c.mark) (mark_color_visitor tok) c).1

/-- The `mark_parser` grammar instance. -/
def markGrammar : Grammar Chart :=
  { mapping_table := [ ("COLOR", ⟨1, ParseFun.point parse_color⟩) ],
    parse_init := mark_parse_init }

/-! ## `xv_sqlite_parser` -/

/-- `xv_sqlite_parser::parse_init`: install the default display
configuration (axis grid on) and consume nothing. -/
def xv_sqlite_parse_init (c : Chart) (_tokens : List String) (b _e : Nat) :
    Except Err (Chart × Nat) :=
  Except.ok ({ c with config := some { axis := some { grid := some true } } }, b)

/-- `xv_sqlite_parser::parse_width`. -/
def parse_width (c : Chart) (tokens : List String) (it : Nat) :
    Except Err Chart :=
  match getTok tokens it with
  | Except.error err => Except.error err
  | Except.ok tok =>
    match stoi tok with
    | Except.error err => Except.error err
    | Except.ok v => Except.ok { c with width := some v }

/-- `xv_sqlite_parser::parse_height`. -/
def parse_height (c : Chart) (tokens : List String) (it : Nat) :
    Except Err Chart :=
  match getTok tokens it with
  | Except.error err => Except.error err
  | Except.ok tok =>
    match stoi tok with
    | Except.error err => Except.error err
    | Except.ok v => Except.ok { c with height := some v }

/-- `xv_sqlite_parser::parse_x_field`: install a fresh `xv::X` encoding and
run a `field_parser` bound to it over the remaining tokens (the nested
parser mutates the chart's x sub-field in place; modelled by threading the
sub-state and writing it back on success). -/
def parse_x_field (c : Chart) (tokens : List String) (b e : Nat) :
    Except Err (Chart × Nat) :=
  match parse_loop fieldGrammar (tokens.length + 1) tokens b e ({} : FieldEnc) with
  | Except.error err => Except.error err
  | Except.ok (enc, it) => Except.ok ({ c with x := some enc }, it)

/-- `xv_sqlite_parser::parse_y_field`. -/
def parse_y_field (c : Chart) (tokens : List String) (b e : Nat) :
    Except Err (Chart × Nat) :=
  match parse_loop fieldGrammar (tokens.length + 1) tokens b e ({} : FieldEnc) with
  | Except.error err => Except.error err
  | Except.ok (enc, it) => Except.ok ({ c with y := some enc }, it)

/-- `xv_sqlite_parser::parse_mark`: run a `mark_parser` bound to the same
chart over the remaining tokens. -/
def parse_mark (c : Chart) (tokens : List String) (b e : Nat) :
    Except Err (Chart × Nat) :=
  parse_loop markGrammar (tokens.length + 1) tokens b e c

/-- The TRUE/FALSE map of `xv_sqlite_parser::parse_grid` (the config and
axis sub-objects are present whenever GRID is parsed, installed by
`xv_sqlite_parse_init`). -/
def grid_handlers : List (String × (Chart → Chart)) :=
  [ ("TRUE", fun c =>
      { c with config := Option.map (fun cfg =>
          { cfg with axis := Option.map (fun a => { a with grid := some true }) cfg.axis }) c.config }),
    ("FALSE", fun c =>
      { c with config := Option.map (fun cfg =>
          { cfg with axis := Option.map (fun a => { a with grid := some false }) cfg.axis }) c.config }) ]

/-- `xv_sqlite_parser::parse_grid` (point handler; unmatched value throws). -/
def parse_grid (c : Chart) (tokens : List String) (it : Nat) :
    Except Err Chart :=
  match getTok tokens it with
  | Except.error err => Except.error err
  | Except.ok tok =>
    match simple_switch tok grid_handlers c with
    | (true, c') => Except.ok c'
    | (false, _) => Except.error (Err.runtimeError "Missing or invalid GRID type")

/-- `xv_sqlite_parser::parse_title`: reads its value token into a local
vector and does nothing with it (the assignment is commented out in the
source). -/
def parse_title (c : Chart) (tokens : List String) (it : Nat) :
    Except Err Chart :=
  match getTok tokens it with
  | Except.error err => Except.error err
  | Except.ok _ => Except.ok c

/-- The top-level `xv_sqlite_parser` grammar instance. -/
def xvSqliteGrammar : Grammar Chart :=
  { mapping_table :=
      [ ("WIDTH",   ⟨1, ParseFun.point parse_width⟩),
        ("HEIGHT",  ⟨1, ParseFun.point parse_height⟩),
        ("X_FIELD", ⟨1, ParseFun.range parse_x_field⟩),
        ("Y_FIELD", ⟨1, ParseFun.range parse_y_field⟩),
        ("MARK",    ⟨1, ParseFun.range parse_mark⟩),
        ("GRID",    ⟨1, ParseFun.point parse_grid⟩),
        ("TITLE",   ⟨1, ParseFun.point parse_title⟩) ],
    parse_init := xv_sqlite_parse_init }

/-- `process_xvega_input`: build a fresh chart (the data frame binding is an
external collaborator and out of scope), run the top-level grammar over the
whole token sequence, and fail if any tokens remain unconsumed; on success
the populated chart is handed to the serializer (modelled by returning it). -/
def process_xvega_input (tokenized_input : List String) : Except Err Chart :=
  let chart : Chart := {}
  match parse_loop xvSqliteGrammar (tokenized_input.length + 1) tokenized_input
      0 tokenized_input.length chart with
  | Except.error err => Except.error err
  | Except.ok (chart, last_parsed) =>
    if last_parsed ≠ tokenized_input.length then
      Except.error (Err.runtimeError "This is not a valid command for SQLite XVega.")
    else
      Except.ok chart

/-! ## Notions used by the verification statements -/

/-- The cursor of a parse result, with `b` standing in when the run failed
(no cursor is returned on the error channel, so cursor properties are
vacuous there). -/
def retCursor {σ : Type} (b : Nat) : Except Err (σ × Nat) → Nat
  | Except.ok (_, c) => c
  | Except.error _ => b

/-- A range handler never returns a cursor below the one it was passed. -/
def RangeMono {σ : Type}
    (f : σ → List String → Nat → Nat → Except Err (σ × Nat)) : Prop :=
  ∀ s tokens b e, b ≤ retCursor b (f s tokens b e)

/-- A grammar's init step never returns a cursor below the one it was
passed. -/
def InitMono {σ : Type} (g : Grammar σ) : Prop :=
  ∀ s tokens b e, b ≤ retCursor b (g.parse_init s tokens b e)

/-- Every range handler reachable through a command table is monotone. -/
def TableMono {σ : Type} (tbl : List (String × CommandInfo σ)) : Prop :=
  ∀ p ∈ tbl, ∀ f, p.2.parse_function = ParseFun.range f → RangeMono f

/-- Modelled from the spec: the declarative description of `loop` — after
the init step, `step` is applied repeatedly from the current position, and
the iteration halts exactly when the cursor reaches `end` or a call to
`step` makes no progress, the loop returning that final cursor (state
mutations of the halting step are retained). -/
inductive LoopSpecSteps {σ : Type} (tbl : List (String × CommandInfo σ))
    (tokens : List String) (e : Nat) : Nat → σ → Nat → σ → Prop where
  | atEnd (s : σ) : LoopSpecSteps tbl tokens e e s e s
  | noProgress (it : Nat) (s s' : σ) : it ≠ e →
      parse_step tbl tokens it e s = Except.ok (s', it) →
      LoopSpecSteps tbl tokens e it s it s'
  | stepOn (it next last : Nat) (s s' s'' : σ) : it ≠ e →
      parse_step tbl tokens it e s = Except.ok (s', next) → next ≠ it →
      LoopSpecSteps tbl tokens e next s' last s'' →
      LoopSpecSteps tbl tokens e it s last s''

/-- `needle` is a prefix of `hay`. -/
def prefixOfChars : List Char → List Char → Bool
  | [], _ => true
  | _ :: _, [] => false
  | a :: as, b :: bs => a == b && prefixOfChars as bs

/-- `needle` occurs contiguously somewhere in the second list. -/
def containsChars (needle : List Char) : List Char → Bool
  | [] => prefixOfChars needle []
  | c :: cs => prefixOfChars needle (c :: cs) || containsChars needle cs

/-- Whether an error message cites a token, i.e. contains it verbatim as a
contiguous substring. -/
def citesToken (msg tok : String) : Bool := containsChars tok.toList msg.toList

/-! ## Helper lemmas -/

/-- A successful association-list lookup comes from an entry of the list. -/
theorem assocLookup_mem {κ α : Type} [DecidableEq κ] (key : κ) :
    ∀ (l : List (κ × α)) (v : α), assocLookup key l = some v → ∃ k, (k, v) ∈ l := by
  intro l
  induction l with
  | nil => intro v h; exact absurd h (by simp [assocLookup])
  | cons p rest ih =>
    intro v h
    obtain ⟨k0, v0⟩ := p
    unfold assocLookup at h
    by_cases hk : k0 = key
    · rw [if_pos hk] at h
      exact ⟨k0, by simp [Option.some.inj h]⟩
    · rw [if_neg hk] at h
      obtain ⟨k, hmem⟩ := ih v h
      exact ⟨k, List.mem_cons_of_mem _ hmem⟩

/-- `parse_step` never moves the cursor backwards, provided every range
handler of the table is monotone. -/
theorem parse_step_mono {σ : Type} (tbl : List (String × CommandInfo σ))
    (hmono : TableMono tbl) (tokens : List String) (b e : Nat) (s : σ) :
    b ≤ retCursor b (parse_step tbl tokens b e s) := by
  unfold parse_step
  split
  · simp [retCursor]
  · rename_i tok hTok
    split
    · simp [retCursor]
    · rename_i ci hLook
      split
      · simp [retCursor]
      · rename_i hA
        split
        · rename_i f hpf
          split
          · simp [retCursor]
          · simp [retCursor]
        · rename_i f hpf
          obtain ⟨k, hkmem⟩ := assocLookup_mem (to_upper tok) tbl ci hLook
          have hf : RangeMono f := hmono (k, ci) hkmem f hpf
          have hb := hf s tokens (b + 1) e
          cases hres : f s tokens (b + 1) e with
          | error err => simp [hres, retCursor]
          | ok q =>
            obtain ⟨s', c⟩ := q
            rw [hres] at hb
            simp only [retCursor] at hb ⊢
            omega

/-- The stepping loop never moves the cursor backwards, provided every range
handler of the table is monotone. -/
theorem parse_loop_aux_mono {σ : Type} (tbl : List (String × CommandInfo σ))
    (hmono : TableMono tbl) (tokens : List String) (e : Nat) :
    ∀ (fuel it : Nat) (s : σ),
      it ≤ retCursor it (parse_loop_aux tbl tokens e fuel it s) := by
  intro fuel
  induction fuel with
  | zero => intro it s; simp [parse_loop_aux, retCursor]
  | succ n ih =>
    intro it s
    unfold parse_loop_aux
    split
    · simp [retCursor]
    · rename_i hit
      split
      · simp [retCursor]
      · rename_i s' next hstep
        split
        · simp [retCursor]
        · rename_i hnext
          have h1 : it ≤ next := by
            have hm := parse_step_mono tbl hmono tokens it e s
            rw [hstep] at hm
            simpa [retCursor] using hm
          have h2 := ih next s'
          cases hrec : parse_loop_aux tbl tokens e n next s' with
          | error err => simp [hrec, retCursor]
          | ok q =>
            obtain ⟨s'', c⟩ := q
            rw [hrec] at h2
            simp only [retCursor] at h2 ⊢
            omega

/-- `parse_loop` never moves the cursor backwards, provided the init step
and every range handler of the table are monotone. -/
theorem parse_loop_mono {σ : Type} (g : Grammar σ) (hinit : InitMono g)
    (hmono : TableMono g.mapping_table) (fuel : Nat) (tokens : List String)
    (b e : Nat) (s : σ) :
    b ≤ retCursor b (parse_loop g fuel tokens b e s) := by
  unfold parse_loop
  split
  · simp [retCursor]
  · rename_i s' it hres
    have h1 : b ≤ it := by
      have hm := hinit s tokens b e
      rw [hres] at hm
      simpa [retCursor] using hm
    have h2 := parse_loop_aux_mono g.mapping_table hmono tokens e fuel it s'
    cases hrec : parse_loop_aux g.mapping_table tokens e fuel it s' with
    | error err => simp [hrec, retCursor]
    | ok q =>
      obtain ⟨s'', c⟩ := q
      rw [hrec] at h2
      simp only [retCursor] at h2 ⊢
      omega

/-- Every successful run of the stepping loop is a chain of `parse_step`
applications in the sense of `LoopSpecSteps`. -/
theorem parse_loop_aux_sound {σ : Type} (tbl : List (String × CommandInfo σ))
    (tokens : List String) (e : Nat) :
    ∀ (fuel it : Nat) (s : σ) (s' : σ) (c : Nat),
      parse_loop_aux tbl tokens e fuel it s = Except.ok (s', c) →
      LoopSpecSteps tbl tokens e it s c s' := by
  intro fuel
  induction fuel with
  | zero =>
    intro it s s' c h
    exact absurd h (by simp [parse_loop_aux])
  | succ n ih =>
    intro it s s' c h
    unfold parse_loop_aux at h
    split at h
    · rename_i hit
      have hsc : s = s' ∧ it = c := by simpa using h
      obtain ⟨rfl, rfl⟩ := hsc
      subst hit
      exact LoopSpecSteps.atEnd s
    · rename_i hit
      split at h
      · exact absurd h (by simp)
      · rename_i s₁ next hstep
        split at h
        · rename_i hnext
          have hsc : s₁ = s' ∧ it = c := by simpa using h
          obtain ⟨rfl, rfl⟩ := hsc
          subst hnext
          exact LoopSpecSteps.noProgress _ _ _ hit hstep
        · rename_i hnext
          exact LoopSpecSteps.stepOn it next c s s₁ s' hit hstep hnext (ih next s₁ s' c h)

/-- All range handlers of the `bin_parser` table (there are none: every
entry is a point handler) are monotone. -/
theorem tableMono_bin : TableMono binGrammar.mapping_table := by
  intro p hp f hf
  simp only [binGrammar, List.mem_cons, List.not_mem_nil, or_false] at hp
  rcases hp with h | h | h | h | h | h | h <;> subst h <;> simp at hf

/-- The default (identity) init step of `bin_parser` is monotone. -/
theorem initMono_bin : InitMono binGrammar := by
  intro s tokens b e
  simp [binGrammar, retCursor]

/-- `field_parser::parse_field_bin` is monotone. -/
theorem rangeMono_parse_field_bin : RangeMono parse_field_bin := by
  intro s tokens b e
  unfold parse_field_bin
  split
  · simp [retCursor]
  · rename_i tok hTok
    split
    · simp [retCursor]
    · rename_i s₁ hsw
      split
      · simp [retCursor]
      · rename_i pst it hloop
        have hm := parse_loop_mono binGrammar initMono_bin tableMono_bin
          (tokens.length + 1) tokens b e ({} : BinParserState)
        rw [hloop] at hm
        simp only [retCursor] at hm
        split
        · simp [retCursor]
        · simp [retCursor]
          omega

/-- `field_parser::parse_field_aggregate` is monotone. -/
theorem rangeMono_parse_field_aggregate : RangeMono parse_field_aggregate := by
  intro s tokens b e
  unfold parse_field_aggregate
  split
  · simp [retCursor]
  · rename_i tok hTok
    split
    · simp [retCursor]
    · simp [retCursor]

/-- All range handlers of the `field_parser` table are monotone. -/
theorem tableMono_field : TableMono fieldGrammar.mapping_table := by
  intro p hp f hf
  simp only [fieldGrammar, List.mem_cons, List.not_mem_nil, or_false] at hp
  rcases hp with h | h | h | h <;> subst h <;> simp at hf
  · exact hf ▸ rangeMono_parse_field_bin
  · exact hf ▸ rangeMono_parse_field_aggregate

/-- `field_parser::parse_init` is monotone. -/
theorem initMono_field : InitMono fieldGrammar := by
  intro s tokens b e
  simp only [fieldGrammar]
  unfold field_parse_init
  split
  · simp [retCursor]
  · simp [retCursor]

/-- All range handlers of the `mark_parser` table (there are none) are
monotone. -/
theorem tableMono_mark : TableMono markGrammar.mapping_table := by
  intro p hp f hf
  simp only [markGrammar, List.mem_cons, List.not_mem_nil, or_false] at hp
  subst hp
  simp at hf

/-- `mark_parser::parse_init` is monotone. -/
theorem initMono_mark : InitMono markGrammar := by
  intro s tokens b e
  simp only [markGrammar]
  unfold mark_parse_init
  split
  · simp [retCursor]
  · rename_i tok hTok
    split
    · simp [retCursor]
    · simp [retCursor]

/-- `xv_sqlite_parser::parse_x_field` is monotone. -/
theorem rangeMono_parse_x_field : RangeMono parse_x_field := by
  intro s tokens b e
  unfold parse_x_field
  have hm := parse_loop_mono fieldGrammar initMono_field tableMono_field
    (tokens.length + 1) tokens b e ({} : FieldEnc)
  split
  · simp [retCursor]
  · rename_i enc it hloop
    rw [hloop] at hm
    simpa [retCursor] using hm

/-- `xv_sqlite_parser::parse_y_field` is monotone. -/
theorem rangeMono_parse_y_field : RangeMono parse_y_field := by
  intro s tokens b e
  unfold parse_y_field
  have hm := parse_loop_mono fieldGrammar initMono_field tableMono_field
    (tokens.length + 1) tokens b e ({} : FieldEnc)
  split
  · simp [retCursor]
  · rename_i enc it hloop
    rw [hloop] at hm
    simpa [retCursor] using hm

/-- `xv_sqlite_parser::parse_mark` is monotone. -/
theorem rangeMono_parse_mark : RangeMono parse_mark := by
  intro s tokens b e
  unfold parse_mark
  exact parse_loop_mono markGrammar initMono_mark tableMono_mark
    (tokens.length + 1) tokens b e s

/-- All range handlers of the top-level `xv_sqlite_parser` table are
monotone. -/
theorem tableMono_xv_sqlite : TableMono xvSqliteGrammar.mapping_table := by
  intro p hp f hf
  simp only [xvSqliteGrammar, List.mem_cons, List.not_mem_nil, or_false] at hp
  rcases hp with h | h | h | h | h | h | h <;> subst h <;> simp at hf
  · exact hf ▸ rangeMono_parse_x_field
  · exact hf ▸ rangeMono_parse_y_field
  · exact hf ▸ rangeMono_parse_mark

/-- `xv_sqlite_parser::parse_init` is monotone. -/
theorem initMono_xv_sqlite : InitMono xvSqliteGrammar := by
  intro s tokens b e
  simp [xvSqliteGrammar, xv_sqlite_parse_init, retCursor]

/-! ## Claims -/

/-- C1: the claimed arity rule does not hold on the code.  With `WIDTH` as
the last token there are zero tokens strictly after the matched keyword,
which is less than the declared minimum of 1, so the claim requires the
arity failure (StructuralError "Arguments missing."); instead the check
`std::distance(it, end) < number_required_arguments` counts the keyword
token itself (distance is 1 here), the check passes, and the point handler
dereferences the past-the-end iterator — undefined behaviour, the modelled
outcome `oobRead`. -/
theorem C1_arity_check_counts_the_keyword :
    parse_step xvSqliteGrammar.mapping_table ["WIDTH"] 0 1 ({} : Chart)
      = Except.error Err.oobRead ∧
    parse_step xvSqliteGrammar.mapping_table ["WIDTH"] 0 1 ({} : Chart)
      ≠ Except.error (Err.runtimeError "Arguments missing.") := by
  have h : parse_step xvSqliteGrammar.mapping_table ["WIDTH"] 0 1 ({} : Chart)
      = Except.error Err.oobRead := by rfl
  refine ⟨h, ?_⟩
  rw [h]
  simp

/-- C2: the claimed SemanticError does not occur on the code.  On
`X_FIELD price BIN` the off-by-one arity check lets `BIN` (the last token)
through, and `parse_field_bin` then dereferences the past-the-end iterator
before any toggle or nested-grammar check can run — undefined behaviour,
the modelled outcome `oobRead`, not the "Missing or invalid BIN type"
error the claim (and the spec's Scenario D) describes. -/
theorem C2_bin_scenario_reads_past_the_end :
    process_xvega_input ["X_FIELD", "price", "BIN"] = Except.error Err.oobRead ∧
    process_xvega_input ["X_FIELD", "price", "BIN"]
      ≠ Except.error (Err.runtimeError "Missing or invalid BIN type") := by
  have h : process_xvega_input ["X_FIELD", "price", "BIN"]
      = Except.error Err.oobRead := by rfl
  refine ⟨h, ?_⟩
  rw [h]
  simp

/-- C6: keyword matching is case-insensitive in both the command-table
lookup and the enumeration resolver — both key on `to_upper` of the token,
so tokens with equal case-fold resolve identically; concretely, the mark
grammar's init step maps "bar", "Bar" and "BAR" to the same installed bar
mark, while "barr" matches no mark kind and raises the
missing-or-invalid-mark error. -/
theorem C6_keyword_matching_case_insensitive :
    (∀ (σ : Type) (tbl : List (String × CommandInfo σ)) (t₁ t₂ : String),
        to_upper t₁ = to_upper t₂ → lookupCmd tbl t₁ = lookupCmd tbl t₂) ∧
    (∀ (σ : Type) (handlers : List (String × (σ → σ))) (s : σ) (t₁ t₂ : String),
        to_upper t₁ = to_upper t₂ →
        simple_switch t₁ handlers s = simple_switch t₂ handlers s) ∧
    (∀ c : Chart,
        mark_parse_init c ["bar"] 0 1
          = Except.ok ({ c with mark := some { kind := MarkKind.bar } }, 1) ∧
        mark_parse_init c ["Bar"] 0 1
          = Except.ok ({ c with mark := some { kind := MarkKind.bar } }, 1) ∧
        mark_parse_init c ["BAR"] 0 1
          = Except.ok ({ c with mark := some { kind := MarkKind.bar } }, 1) ∧
        mark_parse_init c ["barr"] 0 1
          = Except.error (Err.runtimeError "Missing or invalid MARK type")) := by
  refine ⟨?_, ?_, ?_⟩
  · intro σ tbl t₁ t₂ h
    unfold lookupCmd
    rw [h]
  · intro σ handlers s t₁ t₂ h
    unfold simple_switch
    rw [h]
  · intro c
    exact ⟨rfl, rfl, rfl, rfl⟩

/-- Witness for C6 at concrete inputs. -/
theorem C6_keyword_matching_case_insensitive_witness :
    lookupCmd xvSqliteGrammar.mapping_table "width"
      = lookupCmd xvSqliteGrammar.mapping_table "WIDTH" ∧
    mark_parse_init ({} : Chart) ["Bar"] 0 1
      = Except.ok ({ mark := some { kind := MarkKind.bar } }, 1) :=
  ⟨C6_keyword_matching_case_insensitive.1 Chart xvSqliteGrammar.mapping_table
      "width" "WIDTH" (by rfl),
   (C6_keyword_matching_case_insensitive.2.2 ({} : Chart)).2.1⟩

/-- C9: each enumerated keyword set — the 22 aggregate functions, the 9
time units, the 11 mark kinds — has pairwise distinct keywords and pairwise
distinct stored semantic values (the value an entry's effect writes into a
default state), i.e. the keyword-to-value mapping of each set is injective. -/
theorem C9_enumeration_maps_injective :
    field_aggregate_handlers.length = 22 ∧
    field_time_unit_handlers.length = 9 ∧
    mark_init_handlers.length = 11 ∧
    (field_aggregate_handlers.map Prod.fst).Nodup ∧
    (field_aggregate_handlers.map (fun p => (p.2 ({} : FieldEnc)).aggregate)).Nodup ∧
    (field_time_unit_handlers.map Prod.fst).Nodup ∧
    (field_time_unit_handlers.map (fun p => (p.2 ({} : FieldEnc)).timeUnit)).Nodup ∧
    (mark_init_handlers.map Prod.fst).Nodup ∧
    (mark_init_handlers.map (fun p => (p.2 ({} : Chart)).mark)).Nodup := by
  refine ⟨rfl, rfl, rfl, ?_, ?_, ?_, ?_, ?_, ?_⟩ <;> decide

/-- Claim C3 fails on the code: the COLOR handler stores `to_lower` of its
value token, not the token verbatim — on input token "RED" the stored color
is "red", which differs from "RED". -/
theorem C3_color_not_stored_verbatim :
    parse_color { mark := some { kind := MarkKind.bar } } ["RED"] 0
      = Except.ok { mark := some { kind := MarkKind.bar, color := some "red" } } ∧
    ("red" : String) ≠ "RED" := by
  exact ⟨rfl, by decide⟩

/-- Claim C3 as amended: the field identifier consumed by `field_parser`'s
init step is stored verbatim (for every token), while the color value
stored by the COLOR handler is the lower-cased token, so it equals the
input token exactly only when the token is already lower-case. -/
theorem C3_semantic_value_storage :
    (∀ (s : FieldEnc) (tokens : List String) (b e : Nat) (tok : String),
        getTok tokens b = Except.ok tok →
        field_parse_init s tokens b e
          = Except.ok ({ s with field := some tok, type := some "quantitative" }, b + 1)) ∧
    (∀ (c : Chart) (m : MarkValue) (tokens : List String) (it : Nat) (tok : String),
        getTok tokens it = Except.ok tok → c.mark = some m →
        parse_color c tokens it
          = Except.ok { c with
              mark := some { kind := m.kind, color := some (to_lower tok) } }) := by
  constructor
  · intro s tokens b e tok hTok
    unfold field_parse_init
    rw [hTok]
  · intro c m tokens it tok hTok hm
    obtain ⟨kind, color⟩ := m
    unfold parse_color
    rw [hTok]
    cases kind <;>
      simp [visit_any, markTag, hm, mark_color_visitor, assocLookup]

/-- Witness for the amended C3 at concrete inputs. -/
theorem C3_semantic_value_storage_witness :
    field_parse_init ({} : FieldEnc) ["price"] 0 1
      = Except.ok ({ field := some "price", type := some "quantitative" }, 1) ∧
    parse_color { mark := some { kind := MarkKind.tick } } ["Steelblue"] 0
      = Except.ok { mark := some { kind := MarkKind.tick, color := some "steelblue" } } :=
  ⟨C3_semantic_value_storage.1 ({} : FieldEnc) ["price"] 0 1 "price" rfl,
   C3_semantic_value_storage.2 { mark := some { kind := MarkKind.tick } }
      { kind := MarkKind.tick } ["Steelblue"] 0 "Steelblue" rfl rfl⟩

/-- Claim C4 fails on the code only in its parenthetical: on
`WIDTH 400 FOO` the operation does fail with the single
unrecognized-input error, but that error's message is the fixed string
"This is not a valid command for SQLite XVega.", which does not cite the
trailing token `FOO`. -/
theorem C4_error_does_not_cite_trailing_token :
    process_xvega_input ["WIDTH", "400", "FOO"]
      = Except.error (Err.runtimeError "This is not a valid command for SQLite XVega.") ∧
    citesToken "This is not a valid command for SQLite XVega." "FOO" = false := by
  exact ⟨rfl, by decide⟩

/-- Claim C4 as amended: the top-level parse succeeds exactly when the
top-level loop's final cursor equals the end of the sequence; when tokens
remain unconsumed it fails with the single unrecognized-input error, whose
message is a fixed string that does not name the trailing tokens; loop
failures pass through unchanged. -/
theorem C4_success_iff_full_consumption :
    ∀ tokens : List String,
      (∀ (s : Chart) (it : Nat),
        parse_loop xvSqliteGrammar (tokens.length + 1) tokens 0 tokens.length ({} : Chart)
          = Except.ok (s, it) →
        (it = tokens.length → process_xvega_input tokens = Except.ok s) ∧
        (it ≠ tokens.length →
          process_xvega_input tokens
            = Except.error
                (Err.runtimeError "This is not a valid command for SQLite XVega."))) ∧
      (∀ err,
        parse_loop xvSqliteGrammar (tokens.length + 1) tokens 0 tokens.length ({} : Chart)
          = Except.error err →
        process_xvega_input tokens = Except.error err) ∧
      (∀ s : Chart,
        process_xvega_input tokens = Except.ok s →
        parse_loop xvSqliteGrammar (tokens.length + 1) tokens 0 tokens.length ({} : Chart)
          = Except.ok (s, tokens.length)) := by
  intro tokens
  refine ⟨?_, ?_, ?_⟩
  · intro s it h
    refine ⟨fun hit => ?_, fun hit => ?_⟩
    · simp only [process_xvega_input]
      rw [h]
      simp [hit]
    · simp only [process_xvega_input]
      rw [h]
      simp [hit]
  · intro err herr
    simp only [process_xvega_input]
    rw [herr]
  · intro s hs
    simp only [process_xvega_input] at hs
    cases hl : parse_loop xvSqliteGrammar (tokens.length + 1) tokens 0 tokens.length
        ({} : Chart) with
    | error err => rw [hl] at hs; simp at hs
    | ok p =>
      obtain ⟨s', it⟩ := p
      rw [hl] at hs
      by_cases hit : it = tokens.length
      · subst hit
        simp at hs
        simp [hs]
      · simp [hit] at hs

/-- Witness for the amended C4 at a concrete input. -/
theorem C4_success_iff_full_consumption_witness :
    process_xvega_input ["WIDTH", "400"]
      = Except.ok { width := some 400,
                    config := some { axis := some { grid := some true } } } :=
  ((C4_success_iff_full_consumption ["WIDTH", "400"]).1
    { width := some 400, config := some { axis := some { grid := some true } } }
    2 (by rfl)).1 rfl

/-- Claim C5: every successful `parse_loop` run consists of the grammar's
init step (the identity by default) followed by a chain of `parse_step`
applications that halts exactly when the cursor reaches the end or a step
makes no progress, the loop returning that final cursor; and a `parse_step`
whose (readable) current token is not in the table returns its cursor and
state unchanged without raising an error. -/
theorem C5_loop_matches_spec_description :
    (∀ (σ : Type) (g : Grammar σ) (fuel : Nat) (tokens : List String) (b e : Nat)
        (s s' : σ) (c : Nat),
        parse_loop g fuel tokens b e s = Except.ok (s', c) →
        ∃ s₀ c₀, g.parse_init s tokens b e = Except.ok (s₀, c₀) ∧
          LoopSpecSteps g.mapping_table tokens e c₀ s₀ c s') ∧
    (∀ (σ : Type) (tbl : List (String × CommandInfo σ)) (tokens : List String)
        (b e : Nat) (s : σ) (tok : String),
        getTok tokens b = Except.ok tok → lookupCmd tbl tok = none →
        parse_step tbl tokens b e s = Except.ok (s, b)) ∧
    (∀ (σ : Type) (tbl : List (String × CommandInfo σ)) (s : σ)
        (tokens : List String) (b e : Nat),
        Grammar.parse_init { mapping_table := tbl } s tokens b e
          = Except.ok (s, b)) := by
  refine ⟨?_, ?_, ?_⟩
  · intro σ g fuel tokens b e s s' c h
    unfold parse_loop at h
    split at h
    · exact absurd h (by simp)
    · rename_i s₀ c₀ hinit
      exact ⟨s₀, c₀, hinit,
        parse_loop_aux_sound g.mapping_table tokens e fuel c₀ s₀ s' c h⟩
  · intro σ tbl tokens b e s tok hTok hLook
    simp [parse_step, hTok, hLook]
  · intro σ tbl s tokens b e
    rfl

/-- Witness for C5 at concrete inputs: a two-token bin-grammar run, and a
no-match step. -/
theorem C5_loop_matches_spec_description_witness :
    (∃ s₀ c₀,
        binGrammar.parse_init ({} : BinParserState) ["NICE", "TRUE"] 0 2
          = Except.ok (s₀, c₀) ∧
        LoopSpecSteps binGrammar.mapping_table ["NICE", "TRUE"] 2 c₀ s₀ 2
          { bin := { nice := some true }, num_parsed_attrs := 1 }) ∧
    parse_step binGrammar.mapping_table ["FOO"] 0 1 ({} : BinParserState)
      = Except.ok ({}, 0) :=
  ⟨C5_loop_matches_spec_description.1 BinParserState binGrammar 3 ["NICE", "TRUE"]
      0 2 ({} : BinParserState) { bin := { nice := some true }, num_parsed_attrs := 1 }
      2 (by rfl),
   C5_loop_matches_spec_description.2.1 BinParserState binGrammar.mapping_table
      ["FOO"] 0 1 ({} : BinParserState) "FOO" rfl rfl⟩

/-- Claim C7: cursor monotonicity.  For each of the four grammar instances,
`parse_step` and `parse_loop` (any fuel, any tokens, any cursor range, any
state) return a cursor at least the cursor they were passed; every concrete
range handler — including the handlers that recurse into a nested grammar's
loop — and every init step is likewise monotone.  (Point handlers return no
cursor; for them the engine itself advances by two.) -/
theorem C7_cursor_never_moves_backward :
    (∀ (fuel : Nat) (tokens : List String) (b e : Nat) (s : BinParserState),
        b ≤ retCursor b (parse_loop binGrammar fuel tokens b e s)) ∧
    (∀ (fuel : Nat) (tokens : List String) (b e : Nat) (s : FieldEnc),
        b ≤ retCursor b (parse_loop fieldGrammar fuel tokens b e s)) ∧
    (∀ (fuel : Nat) (tokens : List String) (b e : Nat) (s : Chart),
        b ≤ retCursor b (parse_loop markGrammar fuel tokens b e s)) ∧
    (∀ (fuel : Nat) (tokens : List String) (b e : Nat) (s : Chart),
        b ≤ retCursor b (parse_loop xvSqliteGrammar fuel tokens b e s)) ∧
    (∀ (tokens : List String) (b e : Nat) (s : BinParserState),
        b ≤ retCursor b (parse_step binGrammar.mapping_table tokens b e s)) ∧
    (∀ (tokens : List String) (b e : Nat) (s : FieldEnc),
        b ≤ retCursor b (parse_step fieldGrammar.mapping_table tokens b e s)) ∧
    (∀ (tokens : List String) (b e : Nat) (s : Chart),
        b ≤ retCursor b (parse_step markGrammar.mapping_table tokens b e s)) ∧
    (∀ (tokens : List String) (b e : Nat) (s : Chart),
        b ≤ retCursor b (parse_step xvSqliteGrammar.mapping_table tokens b e s)) ∧
    RangeMono parse_field_bin ∧ RangeMono parse_field_aggregate ∧
    RangeMono parse_x_field ∧ RangeMono parse_y_field ∧ RangeMono parse_mark ∧
    InitMono binGrammar ∧ InitMono fieldGrammar ∧
    InitMono markGrammar ∧ InitMono xvSqliteGrammar :=
  ⟨parse_loop_mono binGrammar initMono_bin tableMono_bin,
   parse_loop_mono fieldGrammar initMono_field tableMono_field,
   parse_loop_mono markGrammar initMono_mark tableMono_mark,
   parse_loop_mono xvSqliteGrammar initMono_xv_sqlite tableMono_xv_sqlite,
   parse_step_mono binGrammar.mapping_table tableMono_bin,
   parse_step_mono fieldGrammar.mapping_table tableMono_field,
   parse_step_mono markGrammar.mapping_table tableMono_mark,
   parse_step_mono xvSqliteGrammar.mapping_table tableMono_xv_sqlite,
   rangeMono_parse_field_bin, rangeMono_parse_field_aggregate,
   rangeMono_parse_x_field, rangeMono_parse_y_field, rangeMono_parse_mark,
   initMono_bin, initMono_field, initMono_mark, initMono_xv_sqlite⟩

/-- Witness for C7 at a concrete invocation. -/
theorem C7_cursor_never_moves_backward_witness :
    1 ≤ retCursor 1
      (parse_loop fieldGrammar 6 ["X_FIELD", "price", "TYPE", "ORDINAL"] 1 4
        ({} : FieldEnc)) :=
  C7_cursor_never_moves_backward.2.1 6 ["X_FIELD", "price", "TYPE", "ORDINAL"] 1 4
    ({} : FieldEnc)

/-- Claim C8: `visit_any` runs exactly the handler registered for the
payload's shape, and when no handler is registered it emits the diagnostic
on the side channel, performs no state mutation, and returns normally (its
result is a plain pair, not the error channel).  Instantiated on
`parse_color`: a chart holding no mark (empty `xtl::any`, no registered
handler) passes through untouched with no error raised, while a chart
holding any of the eleven mark shapes has exactly that shape's color set. -/
theorem C8_visit_any_graceful_dispatch :
    (∀ (τ σ : Type) [DecidableEq τ] (typeName : τ → String) (tag : τ)
        (reg : List (τ × (σ → σ))) (s : σ),
        (assocLookup tag reg = none →
          visit_any typeName tag reg s
            = (s, some ("Unregistered type " ++ typeName tag))) ∧
        (∀ h, assocLookup tag reg = some h →
          visit_any typeName tag reg s = (h s, none))) ∧
    (∀ (c : Chart) (tokens : List String) (it : Nat) (tok : String),
        getTok tokens it = Except.ok tok → c.mark = none →
        parse_color c tokens it = Except.ok c) ∧
    (∀ (c : Chart) (m : MarkValue) (tokens : List String) (it : Nat) (tok : String),
        getTok tokens it = Except.ok tok → c.mark = some m →
        parse_color c tokens it
          = Except.ok { c with
              mark := some { kind := m.kind, color := some (to_lower tok) } }) := by
  refine ⟨?_, ?_, ?_⟩
  · intro τ σ inst typeName tag reg s
    constructor
    · intro hnone
      unfold visit_any
      rw [hnone]
    · intro h hsome
      unfold visit_any
      rw [hsome]
  · intro c tokens it tok hTok hm
    unfold parse_color
    rw [hTok]
    simp [visit_any, markTag, hm, mark_color_visitor, assocLookup]
  · intro c m tokens it tok hTok hm
    obtain ⟨kind, color⟩ := m
    unfold parse_color
    rw [hTok]
    cases kind <;>
      simp [visit_any, markTag, hm, mark_color_visitor, assocLookup]

/-- Witness for C8 at concrete inputs: the unregistered (markless) case and
a registered case. -/
theorem C8_visit_any_graceful_dispatch_witness :
    parse_color ({} : Chart) ["RED"] 0 = Except.ok ({} : Chart) ∧
    parse_color { mark := some { kind := MarkKind.line } } ["RED"] 0
      = Except.ok { mark := some { kind := MarkKind.line, color := some "red" } } :=
  ⟨C8_visit_any_graceful_dispatch.2.1 ({} : Chart) ["RED"] 0 "RED" rfl rfl,
   C8_visit_any_graceful_dispatch.2.2 { mark := some { kind := MarkKind.line } }
      { kind := MarkKind.line } ["RED"] 0 "RED" rfl rfl⟩

/-- Claim C10: when the BINNED value token is neither TRUE nor FALSE
(case-insensitively), the handler returns the state completely unchanged —
no mutation, no error, no applied-attribute increment — and the engine
nevertheless advances the cursor past both the keyword and the value token;
by contrast the TYPE, AGGREGATE, TIME_UNIT and GRID handlers raise their
respective errors whenever their value matches no enumerated keyword. -/
theorem C10_binned_silently_ignores_unmatched_value :
    (∀ (s : BinParserState) (tokens : List String) (it : Nat) (tok : String),
        getTok tokens it = Except.ok tok →
        to_upper tok ≠ "TRUE" → to_upper tok ≠ "FALSE" →
        parse_bin_binned s tokens it = Except.ok s) ∧
    (∀ (s : BinParserState) (tokens : List String) (b e : Nat) (kw tok : String),
        getTok tokens b = Except.ok kw → to_upper kw = "BINNED" →
        getTok tokens (b + 1) = Except.ok tok →
        to_upper tok ≠ "TRUE" → to_upper tok ≠ "FALSE" →
        b < e →
        parse_step binGrammar.mapping_table tokens b e s = Except.ok (s, b + 2)) ∧
    (∀ (s : FieldEnc) (tokens : List String) (it : Nat) (tok : String),
        getTok tokens it = Except.ok tok →
        assocLookup (to_upper tok) field_type_handlers = none →
        parse_field_type s tokens it
          = Except.error (Err.runtimeError "Missing or invalid TYPE type")) ∧
    (∀ (s : FieldEnc) (tokens : List String) (b e : Nat) (tok : String),
        getTok tokens b = Except.ok tok →
        assocLookup (to_upper tok) field_aggregate_handlers = none →
        parse_field_aggregate s tokens b e
          = Except.error (Err.runtimeError "Missing or invalid AGGREGATE type")) ∧
    (∀ (s : FieldEnc) (tokens : List String) (it : Nat) (tok : String),
        getTok tokens it = Except.ok tok →
        assocLookup (to_upper tok) field_time_unit_handlers = none →
        parse_field_time_unit s tokens it
          = Except.error (Err.runtimeError "Missing or invalid TIME_UNIT type")) ∧
    (∀ (c : Chart) (tokens : List String) (it : Nat) (tok : String),
        getTok tokens it = Except.ok tok →
        assocLookup (to_upper tok) grid_handlers = none →
        parse_grid c tokens it
          = Except.error (Err.runtimeError "Missing or invalid GRID type")) := by
  refine ⟨?_, ?_, ?_, ?_, ?_, ?_⟩
  · intro s tokens it tok hTok h1 h2
    have e1 : ¬ ("TRUE" = to_upper tok) := fun h => h1 h.symm
    have e2 : ¬ ("FALSE" = to_upper tok) := fun h => h2 h.symm
    unfold parse_bin_binned
    rw [hTok]
    simp [simple_switch, bin_binned_handlers, assocLookup, e1, e2]
  · intro s tokens b e kw tok hkw hupp hTok h1 h2 hbe
    have hLook : lookupCmd binGrammar.mapping_table kw
        = some ⟨1, ParseFun.point parse_bin_binned⟩ := by
      unfold lookupCmd
      rw [hupp]
      rfl
    have hA : ¬ distance b e < (1 : Int) := by
      unfold distance
      omega
    have e1 : ¬ ("TRUE" = to_upper tok) := fun h => h1 h.symm
    have e2 : ¬ ("FALSE" = to_upper tok) := fun h => h2 h.symm
    have hbinned : parse_bin_binned s tokens (b + 1) = Except.ok s := by
      unfold parse_bin_binned
      rw [hTok]
      simp [simple_switch, bin_binned_handlers, assocLookup, e1, e2]
    unfold parse_step
    rw [hkw]
    simp [hLook, hA, hbinned]
  · intro s tokens it tok hTok hLook
    unfold parse_field_type
    rw [hTok]
    simp [simple_switch, hLook]
  · intro s tokens b e tok hTok hLook
    unfold parse_field_aggregate
    rw [hTok]
    simp [simple_switch, hLook]
  · intro s tokens it tok hTok hLook
    unfold parse_field_time_unit
    rw [hTok]
    simp [simple_switch, hLook]
  · intro c tokens it tok hTok hLook
    unfold parse_grid
    rw [hTok]
    simp [simple_switch, hLook]

/-- Witness for C10 at concrete inputs. -/
theorem C10_binned_silently_ignores_unmatched_value_witness :
    parse_bin_binned ({} : BinParserState) ["BINNED", "MAYBE"] 1
      = Except.ok ({} : BinParserState) ∧
    parse_step binGrammar.mapping_table ["BINNED", "MAYBE"] 0 2 ({} : BinParserState)
      = Except.ok ({}, 2) ∧
    parse_field_type ({} : FieldEnc) ["MAYBE"] 0
      = Except.error (Err.runtimeError "Missing or invalid TYPE type") :=
  ⟨C10_binned_silently_ignores_unmatched_value.1 ({} : BinParserState)
      ["BINNED", "MAYBE"] 1 "MAYBE" rfl (by decide) (by decide),
   C10_binned_silently_ignores_unmatched_value.2.1 ({} : BinParserState)
      ["BINNED", "MAYBE"] 0 2 "BINNED" "MAYBE" rfl rfl rfl (by decide) (by decide)
      (by decide),
   C10_binned_silently_ignores_unmatched_value.2.2.1 ({} : FieldEnc)
      ["MAYBE"] 0 "MAYBE" rfl rfl⟩

end XvegaBindings
